import Mathlib

/-!
Formal model of the DISO analysis-session workflow.

This file is a shallow embedding of the core logic of `src/App.tsx` and
`src/types.ts`: the media encoder (size check plus data-URL parsing inside
`processFile`), the error classifier (`getFriendlyErrorMessage`), the analysis
session state machine (`processFile`, the retry button handler, `handleReset`),
and the history store (`addToHistory`, `deleteHistoryItem`, the startup load).

JavaScript strings are modelled as lists of characters (`Str`), so that the
single-character `split` and substring `includes` operations used by the source
become structurally recursive functions that are easy to reason about.
Browser effects are modelled explicitly: the `FileReader` and the inference
call `analyzeMedia` are oracles carried in an `Env`, `localStorage.setItem`
success is an oracle on the list being persisted (`quotaOk`), and each run of
`processFile` returns the list of external requests it initiated (`Effect`).
-/

/-- JavaScript strings, modelled as character lists. -/
abbrev Str := List Char

/-- Conversion of a Lean string literal into the `Str` model. -/
def str (s : String) : Str := s.toList

/-- JS `String.prototype.includes`: `pat` occurs contiguously in `s`. -/
def strIncludes (s pat : Str) : Bool :=
  match s with
  | [] => pat.isEmpty
  | _ :: cs => pat.isPrefixOf s || strIncludes cs pat

/-- JS `String.prototype.split` with a single-character separator:
splits on every occurrence, keeping empty pieces. -/
def splitCh (sep : Char) : List Char → List (List Char)
  | [] => [[]]
  | c :: cs =>
    let r := splitCh sep cs
    if c = sep then [] :: r
    else (c :: r.headD []) :: r.tail

/-- `Date.now().toString()`: decimal rendering of a timestamp. -/
def natToStr (n : Nat) : Str := (toString n).toList

/-- `technicalDetails` record of `AnalysisResult` (src/types.ts:8-14). -/
structure TechnicalDetails where
  lightingConsistency : Str
  textureQuality : Str
  anatomicalAccuracy : Option Str
  metadataAnalysis : Option Str
  temporalConsistency : Option Str
deriving DecidableEq

/-- `AnalysisResult` (src/types.ts:2-15). -/
structure AnalysisResult where
  isAiGenerated : Bool
  confidenceScore : Int
  verdict : Str
  reasoning : List Str
  artifactsFound : List Str
  technicalDetails : TechnicalDetails
deriving DecidableEq

/-- `AnalysisStatus` (src/types.ts:17-22). -/
inductive AnalysisStatus where
  | IDLE
  | ANALYZING
  | COMPLETED
  | ERROR
deriving DecidableEq

/-- A browser `File` handle: name, byte length and declared type. -/
structure JSFile where
  name : Str
  size : Nat
  type : Str
deriving DecidableEq

/-- `UploadedFile` (src/types.ts:24-29). -/
structure UploadedFile where
  file : JSFile
  previewUrl : Str
  base64 : Str
  mimeType : Str
deriving DecidableEq

/-- `HistoryItem` (src/types.ts:31-38). -/
structure HistoryItem where
  id : Str
  timestamp : Nat
  fileName : Str
  fileType : Str
  previewUrl : Str
  result : AnalysisResult
deriving DecidableEq

/-- A raw thrown error: only its (possibly absent) `message` field is ever
inspected by the source (`error?.message || ''`). -/
structure RawError where
  message : Option Str
deriving DecidableEq

/-- The React state of `App` (src/App.tsx:10-15) together with the persisted
`diso_history` slot of `localStorage`, already in parsed form (the JSON
round-trip is the identity on well-formed records). -/
structure AppState where
  status : AnalysisStatus
  currentFile : Option UploadedFile
  result : Option AnalysisResult
  error : Option Str
  history : List HistoryItem
  storage : Option (List HistoryItem)
deriving DecidableEq

/-- Outcome of `FileReader.readAsDataURL`: the `onload` string or `onerror`. -/
inductive ReadResult where
  | ok (base64Raw : Str)
  | err

/-- External requests initiated by one invocation of `processFile`. -/
inductive Effect where
  | read (f : JSFile)
  | apiCall (data mimeType : Str)
deriving DecidableEq

/-- The environment of oracles: reader behaviour, `analyzeMedia` behaviour,
whether `localStorage.setItem` succeeds on a given list, and `Date.now()`. -/
structure Env where
  readFile : JSFile → ReadResult
  api : Str → Str → Except RawError AnalysisResult
  quotaOk : List HistoryItem → Bool
  now : Nat

/-- `getFriendlyErrorMessage` (src/App.tsx:78-106): substring pattern match on
the raw error message, first matching branch wins, with a generic fallback.
A total function: every raw error yields a message, nothing is thrown. -/
def getFriendlyErrorMessage (error : RawError) : Str :=
  let msg := error.message.getD []
  if strIncludes msg (str "MISSING_API_KEY") || strIncludes msg (str "API key") ||
      strIncludes msg (str "403") then
    str "Authentication Failed. Please check your API Key configuration."
  else if strIncludes msg (str "400") || strIncludes msg (str "INVALID_ARGUMENT") then
    str "Analysis Rejected. The media format might be unsupported or the file is corrupted."
  else if strIncludes msg (str "503") || strIncludes msg (str "500") ||
      strIncludes msg (str "Overloaded") then
    str "System Overload. The AI forensic model is currently busy. Please try again in a moment."
  else if strIncludes msg (str "fetch") || strIncludes msg (str "network") ||
      strIncludes msg (str "Failed to fetch") then
    str "Network Error. Please check your internet connection."
  else if strIncludes msg (str "File too large") then
    msg
  else if strIncludes msg (str "NO_RESPONSE_TEXT") then
    str "Analysis Error. The AI model failed to generate a structured report."
  else
    str "An unexpected error occurred during analysis. Please try again."

/-- The error categories of the classifier contract, one per branch of
`getFriendlyErrorMessage`, in the source's branch order. -/
inductive ErrorCategory where
  | Authentication
  | InvalidMedia
  | ServiceOverloaded
  | NetworkUnavailable
  | FileTooLarge
  | MalformedResponse
  | Unknown
deriving DecidableEq

/-- The category of the branch of `getFriendlyErrorMessage` (src/App.tsx:78-106)
that handles a given raw error: same conditions, in the same order. -/
def classify (error : RawError) : ErrorCategory :=
  let msg := error.message.getD []
  if strIncludes msg (str "MISSING_API_KEY") || strIncludes msg (str "API key") ||
      strIncludes msg (str "403") then
    .Authentication
  else if strIncludes msg (str "400") || strIncludes msg (str "INVALID_ARGUMENT") then
    .InvalidMedia
  else if strIncludes msg (str "503") || strIncludes msg (str "500") ||
      strIncludes msg (str "Overloaded") then
    .ServiceOverloaded
  else if strIncludes msg (str "fetch") || strIncludes msg (str "network") ||
      strIncludes msg (str "Failed to fetch") then
    .NetworkUnavailable
  else if strIncludes msg (str "File too large") then
    .FileTooLarge
  else if strIncludes msg (str "NO_RESPONSE_TEXT") then
    .MalformedResponse
  else
    .Unknown

/-- The authorization-failure indicators (first branch, src/App.tsx:81). -/
def matchesAuth (msg : Str) : Bool :=
  strIncludes msg (str "MISSING_API_KEY") || strIncludes msg (str "API key") ||
    strIncludes msg (str "403")

/-- The bad-request indicators (second branch, src/App.tsx:85). -/
def matchesInvalid (msg : Str) : Bool :=
  strIncludes msg (str "400") || strIncludes msg (str "INVALID_ARGUMENT")

/-- The overload indicators (third branch, src/App.tsx:89). -/
def matchesOverload (msg : Str) : Bool :=
  strIncludes msg (str "503") || strIncludes msg (str "500") ||
    strIncludes msg (str "Overloaded")

/-- The connectivity-failure indicators (fourth branch, src/App.tsx:93). -/
def matchesNetwork (msg : Str) : Bool :=
  strIncludes msg (str "fetch") || strIncludes msg (str "network") ||
    strIncludes msg (str "Failed to fetch")

/-- The oversize-file indicator (fifth branch, src/App.tsx:97). -/
def matchesTooLarge (msg : Str) : Bool :=
  strIncludes msg (str "File too large")

/-- The missing-response indicator (sixth branch, src/App.tsx:101). -/
def matchesNoResponse (msg : Str) : Bool :=
  strIncludes msg (str "NO_RESPONSE_TEXT")

/-- Whether any known indicator matches the message. -/
def matchesAny (msg : Str) : Bool :=
  matchesAuth msg || matchesInvalid msg || matchesOverload msg ||
    matchesNetwork msg || matchesTooLarge msg || matchesNoResponse msg

/-- The `newItem` record built by `addToHistory` (src/App.tsx:30-37); both
`id` and `timestamp` come from the same `Date.now()` instant. -/
def mkHistoryItem (now : Nat) (file : UploadedFile) (analysis : AnalysisResult) :
    HistoryItem :=
  { id := natToStr now
    timestamp := now
    fileName := file.file.name
    fileType := file.mimeType
    previewUrl := file.previewUrl
    result := analysis }

/-- `addToHistory` (src/App.tsx:29-55): try to persist the full record
prepended to the current list; on storage failure retry once with the preview
elided; if that also fails, drop the record (log only). `q` tells whether
`localStorage.setItem` succeeds on a given list. -/
def addToHistory (q : List HistoryItem → Bool) (now : Nat) (file : UploadedFile)
    (analysis : AnalysisResult) (st : AppState) : AppState :=
  let newItem := mkHistoryItem now file analysis
  let updatedHistory := newItem :: st.history
  if q updatedHistory then
    { st with storage := some updatedHistory, history := updatedHistory }
  else
    let itemWithoutImage := { newItem with previewUrl := [] }
    let updatedHistory2 := itemWithoutImage :: st.history
    if q updatedHistory2 then
      { st with storage := some updatedHistory2, history := updatedHistory2 }
    else
      st

/-- `deleteHistoryItem` (src/App.tsx:57-62): filter the id out of the list and
immediately re-persist the filtered list. -/
def deleteHistoryItem (i : Str) (st : AppState) : AppState :=
  let updatedHistory := st.history.filter (fun item => item.id ≠ i)
  { st with history := updatedHistory, storage := some updatedHistory }

/-- Startup history load (src/App.tsx:18-27): adopt the persisted list when
present; an absent (or unparseable) slot leaves the empty in-memory list. -/
def loadHistory (st : AppState) : AppState :=
  match st.storage with
  | some l => { st with history := l }
  | none => st

/-- The string produced by `FileReader.readAsDataURL` for a file whose
declared MIME type is `m` and whose base64-encoded content is `p`. -/
def mkDataUrl (m p : Str) : Str :=
  str "data:" ++ m ++ str ";base64," ++ p

/-- The data-URL destructuring inside the `onload` handler
(src/App.tsx:132-133): `const [meta, data] = base64Raw.split(',')` and
`meta.split(':')[1].split(';')[0]`. Indexing `[1]` past the end is `undefined`
in JS and the subsequent `.split` throws; that is the `none` case, which the
caller routes to its `catch`. -/
def parseDataUrl (base64Raw : Str) : Option (Str × Str) :=
  let parts := splitCh ',' base64Raw
  let meta := parts.headD []
  let data := parts.getD 1 []
  match (splitCh ':' meta).get? 1 with
  | none => none
  | some afterColon => some ((splitCh ';' afterColon).headD [], data)

/-- `processFile` (src/App.tsx:116-167), run to quiescence: size check, read,
data-URL parse, inference call, then either the `Completed` transition plus
archival or the `Failed` transition with a classified message. The returned
list records the external requests initiated by this invocation. -/
def processFile (env : Env) (file : JSFile) (st : AppState) :
    AppState × List Effect :=
  if file.size > 20 * 1024 * 1024 then
    ({ st with
        error := some (getFriendlyErrorMessage
          { message := some (str "File too large. Please upload media under 20MB.") })
        status := .ERROR }, [])
  else
    let st1 : AppState := { st with status := .ANALYZING, error := none, result := none }
    match env.readFile file with
    | .err =>
        ({ st1 with
            error := some (str "Failed to read file. Please try another file.")
            status := .ERROR }, [Effect.read file])
    | .ok base64Raw =>
        match parseDataUrl base64Raw with
        | none =>
            ({ st1 with
                error := some (getFriendlyErrorMessage { message := none })
                status := .ERROR }, [Effect.read file])
        | some (mimeType, data) =>
            let uploadData : UploadedFile :=
              { file := file, previewUrl := base64Raw, base64 := data, mimeType := mimeType }
            let st2 : AppState := { st1 with currentFile := some uploadData }
            match env.api data mimeType with
            | .error apiError =>
                ({ st2 with
                    error := some (getFriendlyErrorMessage apiError)
                    status := .ERROR }, [Effect.read file, Effect.apiCall data mimeType])
            | .ok analysis =>
                let st3 : AppState := { st2 with result := some analysis, status := .COMPLETED }
                (addToHistory env.quotaOk env.now uploadData analysis st3,
                  [Effect.read file, Effect.apiCall data mimeType])

/-- The `onClick` handler of the Retry button (src/App.tsx:304):
`currentFile && processFile(currentFile.file)`. -/
def retryClick (env : Env) (st : AppState) : AppState × List Effect :=
  match st.currentFile with
  | some u => processFile env u.file st
  | none => (st, [])

/-- `handleReset` (src/App.tsx:169-174): back to `Idle`, discarding the
session's media, result and error; history and storage are untouched. -/
def handleReset (st : AppState) : AppState :=
  { st with status := .IDLE, currentFile := none, result := none, error := none }

/-- A fixed verdict used by concrete scenarios. -/
def resA : AnalysisResult :=
  { isAiGenerated := true
    confidenceScore := 87
    verdict := str "Likely AI-generated"
    reasoning := [str "texture artifacts"]
    artifactsFound := [str "warped hands"]
    technicalDetails :=
      { lightingConsistency := str "inconsistent"
        textureQuality := str "smooth"
        anatomicalAccuracy := none
        metadataAnalysis := none
        temporalConsistency := none } }

/-- A 2 KB JPEG file handle used by concrete scenarios. -/
def fileA : JSFile :=
  { name := str "photo.jpg", size := 2048, type := str "image/jpeg" }

/-- A file of exactly 20 MiB (the boundary of the size check). -/
def file20 : JSFile :=
  { name := str "big.mp4", size := 20 * 1024 * 1024, type := str "video/mp4" }

/-- The `UploadedFile` produced by a successful encode of `fileA`. -/
def uploadA : UploadedFile :=
  { file := fileA
    previewUrl := mkDataUrl (str "image/jpeg") (str "QUJD")
    base64 := str "QUJD"
    mimeType := str "image/jpeg" }

/-- An environment whose reader succeeds, whose inference call succeeds with
`resA`, and whose storage always has room. -/
def envOk : Env :=
  { readFile := fun _ => .ok (mkDataUrl (str "image/jpeg") (str "QUJD"))
    api := fun _ _ => .ok resA
    quotaOk := fun _ => true
    now := 5 }

/-- Like `envOk` but the inference call fails with a connectivity error. -/
def envErr : Env :=
  { readFile := fun _ => .ok (mkDataUrl (str "image/jpeg") (str "QUJD"))
    api := fun _ _ => .error { message := some (str "Failed to fetch") }
    quotaOk := fun _ => true
    now := 5 }

/-- The initial app state: idle session, empty history, empty storage. -/
def st0 : AppState :=
  { status := .IDLE
    currentFile := none
    result := none
    error := none
    history := []
    storage := none }

/-- The `Failed` state reached by submitting `fileA` under `envErr`. -/
def stErrA : AppState := (processFile envErr fileA st0).1

/-- A file one byte over the 20 MiB ceiling. -/
def file21 : JSFile :=
  { name := str "big.mov", size := 20 * 1024 * 1024 + 1, type := str "video/quicktime" }

/-- Storage that only has room when the newest record carries no preview:
persisting a list whose head has a non-empty preview fails. -/
def quotaTight (l : List HistoryItem) : Bool :=
  match l with
  | [] => true
  | x :: _ => x.previewUrl.isEmpty

/-- Storage with no remaining capacity at all: every persist attempt fails. -/
def quotaNone : List HistoryItem → Bool := fun _ => false

/-- A pre-existing history record used by concrete scenarios. -/
def itemB : HistoryItem :=
  { id := str "7"
    timestamp := 3
    fileName := str "a.png"
    fileType := str "image/png"
    previewUrl := []
    result := resA }

/-- A state whose history holds the single record `itemB`. -/
def stA : AppState := { st0 with history := [itemB], storage := some [itemB] }

/-- A state captured mid-submission: the session is already `ANALYZING`. -/
def stAna : AppState := { st0 with status := .ANALYZING }

/-- The newest-first ordering of a history list: creation timestamps are
non-increasing from head to tail. -/
def newestFirst (l : List HistoryItem) : Prop :=
  l.Pairwise (fun a b => b.timestamp ≤ a.timestamp)

lemma splitCh_ne_nil (sep : Char) (l : List Char) : splitCh sep l ≠ [] := by
  cases l with
  | nil => simp [splitCh]
  | cons c cs =>
    by_cases h : c = sep <;> simp [splitCh, h]

lemma splitCh_of_not_mem (sep : Char) (a : List Char) (h : sep ∉ a) :
    splitCh sep a = [a] := by
  induction a with
  | nil => rfl
  | cons c cs ih =>
    have hc : ¬ c = sep := fun hh => h (hh ▸ List.mem_cons_self c cs)
    have hcs : sep ∉ cs := fun hh => h (List.mem_cons_of_mem _ hh)
    simp [splitCh, hc, ih hcs]

lemma splitCh_append (sep : Char) (a b : List Char) (h : sep ∉ a) :
    splitCh sep (a ++ sep :: b) = a :: splitCh sep b := by
  induction a with
  | nil => simp [splitCh]
  | cons c cs ih =>
    have hc : ¬ c = sep := fun hh => h (hh ▸ List.mem_cons_self c cs)
    have hcs : sep ∉ cs := fun hh => h (List.mem_cons_of_mem _ hh)
    have ih' := ih hcs
    simp [List.cons_append, splitCh, hc, ih']

/-- On a well-formed data URL (no comma in the MIME type or payload, no colon
or semicolon in the MIME type), the destructuring of src/App.tsx:132-133
recovers exactly the MIME type and the payload. -/
lemma parseDataUrl_mk (m p : Str) (hm1 : ',' ∉ m) (hm2 : ':' ∉ m)
    (hm3 : ';' ∉ m) (hp : ',' ∉ p) :
    parseDataUrl (mkDataUrl m p) = some (m, p) := by
  have hsplit1 : splitCh ',' (mkDataUrl m p) = [str "data:" ++ m ++ str ";base64", p] := by
    have hshape : mkDataUrl m p = (str "data:" ++ m ++ str ";base64") ++ ',' :: p := by
      simp [mkDataUrl, str]
    have hnm : ',' ∉ str "data:" ++ m ++ str ";base64" := by
      intro hmem
      rcases List.mem_append.1 hmem with hmem' | hmem'
      · rcases List.mem_append.1 hmem' with hmem'' | hmem''
        · revert hmem''; decide
        · exact hm1 hmem''
      · revert hmem'; decide
    rw [hshape, splitCh_append _ _ _ hnm, splitCh_of_not_mem _ _ hp]
  have hsplit2 : splitCh ':' (str "data:" ++ (m ++ str ";base64")) =
      [str "data", m ++ str ";base64"] := by
    have hshape : str "data:" ++ (m ++ str ";base64") =
        str "data" ++ ':' :: (m ++ str ";base64") := by
      simp [str]
    have hnm : ':' ∉ str "data" := by decide
    have hnm2 : ':' ∉ m ++ str ";base64" := by
      intro hmem
      rcases List.mem_append.1 hmem with hmem' | hmem'
      · exact hm2 hmem'
      · revert hmem'; decide
    rw [hshape, splitCh_append _ _ _ hnm, splitCh_of_not_mem _ _ hnm2]
  have hsplit3 : splitCh ';' (m ++ str ";base64") = [m, str "base64"] := by
    have hshape : m ++ str ";base64" = m ++ ';' :: str "base64" := by
      simp [str]
    have hnm : ';' ∉ str "base64" := by decide
    rw [hshape, splitCh_append _ _ _ hm3, splitCh_of_not_mem _ _ hnm]
  simp [parseDataUrl, hsplit1, hsplit2, hsplit3]

/-- `addToHistory` never writes the session's status. -/
lemma addToHistory_status (q : List HistoryItem → Bool) (now : Nat)
    (file : UploadedFile) (analysis : AnalysisResult) (st : AppState) :
    (addToHistory q now file analysis st).status = st.status := by
  unfold addToHistory
  by_cases h1 : q (mkHistoryItem now file analysis :: st.history) <;>
    by_cases h2 : q ({ mkHistoryItem now file analysis with previewUrl := [] } :: st.history) <;>
    simp [h1, h2]

/-- `addToHistory` never writes the session's captured media. -/
lemma addToHistory_currentFile (q : List HistoryItem → Bool) (now : Nat)
    (file : UploadedFile) (analysis : AnalysisResult) (st : AppState) :
    (addToHistory q now file analysis st).currentFile = st.currentFile := by
  unfold addToHistory
  by_cases h1 : q (mkHistoryItem now file analysis :: st.history) <;>
    by_cases h2 : q ({ mkHistoryItem now file analysis with previewUrl := [] } :: st.history) <;>
    simp [h1, h2]

/-- `addToHistory` never writes the session's result. -/
lemma addToHistory_result (q : List HistoryItem → Bool) (now : Nat)
    (file : UploadedFile) (analysis : AnalysisResult) (st : AppState) :
    (addToHistory q now file analysis st).result = st.result := by
  unfold addToHistory
  by_cases h1 : q (mkHistoryItem now file analysis :: st.history) <;>
    by_cases h2 : q ({ mkHistoryItem now file analysis with previewUrl := [] } :: st.history) <;>
    simp [h1, h2]

/-- `addToHistory` never writes the session's error. -/
lemma addToHistory_error (q : List HistoryItem → Bool) (now : Nat)
    (file : UploadedFile) (analysis : AnalysisResult) (st : AppState) :
    (addToHistory q now file analysis st).error = st.error := by
  unfold addToHistory
  by_cases h1 : q (mkHistoryItem now file analysis :: st.history) <;>
    by_cases h2 : q ({ mkHistoryItem now file analysis with previewUrl := [] } :: st.history) <;>
    simp [h1, h2]

lemma filter_self_idem {α : Type} (p : α → Bool) (l : List α) :
    (l.filter p).filter p = l.filter p := by
  induction l with
  | nil => rfl
  | cons a l ih =>
    by_cases h : p a <;> simp [List.filter_cons, h, ih]

example : str "ab" = ['a', 'b'] := by decide
example : strIncludes (str "error 403 now") (str "403") = true := by decide
example : strIncludes (str "error 404") (str "403") = false := by decide
example : splitCh ',' (str "a:b,c") = [str "a:b", str "c"] := by decide
example : natToStr 57 = str "57" := by decide
example :
    parseDataUrl (mkDataUrl (str "image/jpeg") (str "QUJD")) =
      some (str "image/jpeg", str "QUJD") := by decide
example : classify { message := some (str "403 and 503") } = .Authentication := by decide
example :
    getFriendlyErrorMessage { message := none } =
      str "An unexpected error occurred during analysis. Please try again." := by decide

/-- C5: every raw error whose message contains an authorization-failure
indicator classifies as `Authentication` with its fixed user-facing message,
and every raw error matching no known indicator (which includes every error
with no message at all, since the absent message is read as the empty string)
classifies as `Unknown` with the generic fallback message. `classify` and
`getFriendlyErrorMessage` are total Lean functions, so classification is
defined on every raw error and never throws. -/
theorem classify_auth_and_unknown (e : RawError) :
    (matchesAuth (e.message.getD []) = true →
      classify e = .Authentication ∧
      getFriendlyErrorMessage e =
        str "Authentication Failed. Please check your API Key configuration.") ∧
    (matchesAny (e.message.getD []) = false →
      classify e = .Unknown ∧
      getFriendlyErrorMessage e =
        str "An unexpected error occurred during analysis. Please try again.") := by
  constructor
  · intro h
    simp only [matchesAuth] at h
    simp [classify, getFriendlyErrorMessage, h]
  · intro h
    simp only [matchesAny, matchesAuth, matchesInvalid, matchesOverload, matchesNetwork,
      matchesTooLarge, matchesNoResponse, Bool.or_eq_false_iff] at h
    obtain ⟨⟨⟨⟨⟨⟨⟨h1, h2⟩, h3⟩, ⟨h4, h5⟩⟩, ⟨⟨h6, h7⟩, h8⟩⟩, ⟨⟨h9, h10⟩, h11⟩⟩, h12⟩, h13⟩ := h
    simp [classify, getFriendlyErrorMessage, h1, h2, h3, h4, h5, h6, h7, h8, h9, h10,
      h11, h12, h13]

/-- Witness for C5 at concrete errors: a message containing `403` is
classified as `Authentication`, and an error with no message at all is
classified as `Unknown` with the fallback message. -/
theorem classify_auth_and_unknown_witness :
    (classify { message := some (str "HTTP 403 rejected") } = .Authentication ∧
      getFriendlyErrorMessage { message := some (str "HTTP 403 rejected") } =
        str "Authentication Failed. Please check your API Key configuration.") ∧
    (classify { message := none } = .Unknown ∧
      getFriendlyErrorMessage { message := none } =
        str "An unexpected error occurred during analysis. Please try again.") :=
  ⟨(classify_auth_and_unknown { message := some (str "HTTP 403 rejected") }).1 (by decide),
   (classify_auth_and_unknown { message := none }).2 (by decide)⟩

/-- C9: the classifier applies its pattern checks in the fixed source order —
Authentication, then InvalidMedia, then ServiceOverloaded, then
NetworkUnavailable, then FileTooLarge, then MalformedResponse, then Unknown —
so a message carrying indicators of several categories is classified as the
earliest matching category in that order. -/
theorem classify_fixed_order (e : RawError) :
    (matchesAuth (e.message.getD []) = true → classify e = .Authentication) ∧
    (matchesAuth (e.message.getD []) = false →
      matchesInvalid (e.message.getD []) = true → classify e = .InvalidMedia) ∧
    (matchesAuth (e.message.getD []) = false →
      matchesInvalid (e.message.getD []) = false →
      matchesOverload (e.message.getD []) = true → classify e = .ServiceOverloaded) ∧
    (matchesAuth (e.message.getD []) = false →
      matchesInvalid (e.message.getD []) = false →
      matchesOverload (e.message.getD []) = false →
      matchesNetwork (e.message.getD []) = true → classify e = .NetworkUnavailable) ∧
    (matchesAuth (e.message.getD []) = false →
      matchesInvalid (e.message.getD []) = false →
      matchesOverload (e.message.getD []) = false →
      matchesNetwork (e.message.getD []) = false →
      matchesTooLarge (e.message.getD []) = true → classify e = .FileTooLarge) ∧
    (matchesAuth (e.message.getD []) = false →
      matchesInvalid (e.message.getD []) = false →
      matchesOverload (e.message.getD []) = false →
      matchesNetwork (e.message.getD []) = false →
      matchesTooLarge (e.message.getD []) = false →
      matchesNoResponse (e.message.getD []) = true → classify e = .MalformedResponse) ∧
    (matchesAny (e.message.getD []) = false → classify e = .Unknown) := by
  refine ⟨?_, ?_, ?_, ?_, ?_, ?_, ?_⟩
  · intro h1
    simp only [matchesAuth] at h1
    simp [classify, h1]
  · intro h1 h2
    simp only [matchesAuth, Bool.or_eq_false_iff] at h1
    simp only [matchesInvalid] at h2
    simp [classify, h1.1.1, h1.1.2, h1.2, h2]
  · intro h1 h2 h3
    simp only [matchesAuth, Bool.or_eq_false_iff] at h1
    simp only [matchesInvalid, Bool.or_eq_false_iff] at h2
    simp only [matchesOverload] at h3
    simp [classify, h1.1.1, h1.1.2, h1.2, h2.1, h2.2, h3]
  · intro h1 h2 h3 h4
    simp only [matchesAuth, Bool.or_eq_false_iff] at h1
    simp only [matchesInvalid, Bool.or_eq_false_iff] at h2
    simp only [matchesOverload, Bool.or_eq_false_iff] at h3
    simp only [matchesNetwork] at h4
    simp [classify, h1.1.1, h1.1.2, h1.2, h2.1, h2.2, h3.1.1, h3.1.2, h3.2, h4]
  · intro h1 h2 h3 h4 h5
    simp only [matchesAuth, Bool.or_eq_false_iff] at h1
    simp only [matchesInvalid, Bool.or_eq_false_iff] at h2
    simp only [matchesOverload, Bool.or_eq_false_iff] at h3
    simp only [matchesNetwork, Bool.or_eq_false_iff] at h4
    simp only [matchesTooLarge] at h5
    simp [classify, h1.1.1, h1.1.2, h1.2, h2.1, h2.2, h3.1.1, h3.1.2, h3.2, h4.1.1,
      h4.1.2, h4.2, h5]
  · intro h1 h2 h3 h4 h5 h6
    simp only [matchesAuth, Bool.or_eq_false_iff] at h1
    simp only [matchesInvalid, Bool.or_eq_false_iff] at h2
    simp only [matchesOverload, Bool.or_eq_false_iff] at h3
    simp only [matchesNetwork, Bool.or_eq_false_iff] at h4
    simp only [matchesTooLarge] at h5
    simp only [matchesNoResponse] at h6
    simp [classify, h1.1.1, h1.1.2, h1.2, h2.1, h2.2, h3.1.1, h3.1.2, h3.2, h4.1.1,
      h4.1.2, h4.2, h5, h6]
  · intro h
    simp only [matchesAny, matchesAuth, matchesInvalid, matchesOverload, matchesNetwork,
      matchesTooLarge, matchesNoResponse, Bool.or_eq_false_iff] at h
    obtain ⟨⟨⟨⟨⟨⟨⟨h1, h2⟩, h3⟩, ⟨h4, h5⟩⟩, ⟨⟨h6, h7⟩, h8⟩⟩, ⟨⟨h9, h10⟩, h11⟩⟩, h12⟩, h13⟩ := h
    simp [classify, h1, h2, h3, h4, h5, h6, h7, h8, h9, h10, h11, h12, h13]

/-- Witness for C9 at concrete multi-indicator messages: `403` together with
`503` classifies as `Authentication`; `400` together with `503` classifies as
`InvalidMedia`; `503` together with `fetch` classifies as
`ServiceOverloaded`. -/
theorem classify_fixed_order_witness :
    classify { message := some (str "got 403 then 503") } = .Authentication ∧
    classify { message := some (str "got 400 then 503") } = .InvalidMedia ∧
    classify { message := some (str "503 on fetch") } = .ServiceOverloaded :=
  ⟨(classify_fixed_order { message := some (str "got 403 then 503") }).1 (by decide),
   (classify_fixed_order { message := some (str "got 400 then 503") }).2.1
     (by decide) (by decide),
   (classify_fixed_order { message := some (str "503 on fetch") }).2.2.1
     (by decide) (by decide) (by decide)⟩

/-- C4: when the first persistence attempt of `addToHistory` fails, the
operation retries exactly once with the preview representation replaced by
the empty marker; the retried record agrees with the original on id,
timestamp, file name, content type and verdict, and on success both the
in-memory list and the persisted list gain exactly that elided record. If
the second attempt also fails, the whole state is returned unchanged, so the
record is dropped from persisted storage; in every case the failure is
non-fatal: the session status (in particular `Completed`) is untouched. -/
theorem addToHistory_quota_fallback (q : List HistoryItem → Bool) (now : Nat)
    (file : UploadedFile) (analysis : AnalysisResult) (st : AppState)
    (h1 : q (mkHistoryItem now file analysis :: st.history) = false) :
    (q ({ mkHistoryItem now file analysis with previewUrl := [] } :: st.history) = true →
      (addToHistory q now file analysis st).history =
        { mkHistoryItem now file analysis with previewUrl := [] } :: st.history ∧
      (addToHistory q now file analysis st).storage =
        some ({ mkHistoryItem now file analysis with previewUrl := [] } :: st.history)) ∧
    (q ({ mkHistoryItem now file analysis with previewUrl := [] } :: st.history) = false →
      addToHistory q now file analysis st = st) ∧
    ({ mkHistoryItem now file analysis with previewUrl := [] } : HistoryItem).id =
      (mkHistoryItem now file analysis).id ∧
    ({ mkHistoryItem now file analysis with previewUrl := [] } : HistoryItem).timestamp =
      (mkHistoryItem now file analysis).timestamp ∧
    ({ mkHistoryItem now file analysis with previewUrl := [] } : HistoryItem).fileName =
      (mkHistoryItem now file analysis).fileName ∧
    ({ mkHistoryItem now file analysis with previewUrl := [] } : HistoryItem).fileType =
      (mkHistoryItem now file analysis).fileType ∧
    ({ mkHistoryItem now file analysis with previewUrl := [] } : HistoryItem).result =
      (mkHistoryItem now file analysis).result ∧
    (addToHistory q now file analysis st).status = st.status := by
  refine ⟨?_, ?_, rfl, rfl, rfl, rfl, rfl, addToHistory_status q now file analysis st⟩
  · intro h2
    constructor <;> simp [addToHistory, h1, h2]
  · intro h2
    simp [addToHistory, h1, h2]

/-- Witness for C4: under `quotaTight` storage the full record for `uploadA`
does not fit but the preview-elided record does, and the session status is
untouched. -/
theorem addToHistory_quota_fallback_witness :
    (addToHistory quotaTight 5 uploadA resA st0).history =
      { mkHistoryItem 5 uploadA resA with previewUrl := [] } :: st0.history ∧
    (addToHistory quotaTight 5 uploadA resA st0).storage =
      some ({ mkHistoryItem 5 uploadA resA with previewUrl := [] } :: st0.history) ∧
    (addToHistory quotaTight 5 uploadA resA st0).status = st0.status :=
  ⟨((addToHistory_quota_fallback quotaTight 5 uploadA resA st0 (by decide)).1 (by decide)).1,
   ((addToHistory_quota_fallback quotaTight 5 uploadA resA st0 (by decide)).1 (by decide)).2,
   (addToHistory_quota_fallback quotaTight 5 uploadA resA st0 (by decide)).2.2.2.2.2.2.2⟩

/-- C10: if both persistence attempts of `addToHistory` fail, the state is
returned entirely unchanged — so the record is absent from the in-memory
history list as well, not only from persisted storage: a subsequent `list()`
does not contain the completed analysis (its id is nowhere in the list when
it was not there before), even though the session status is untouched. -/
theorem addToHistory_double_failure_inmemory (q : List HistoryItem → Bool)
    (now : Nat) (file : UploadedFile) (analysis : AnalysisResult) (st : AppState)
    (h1 : q (mkHistoryItem now file analysis :: st.history) = false)
    (h2 : q ({ mkHistoryItem now file analysis with previewUrl := [] } :: st.history) = false) :
    addToHistory q now file analysis st = st ∧
    ((∀ x ∈ st.history, x.id ≠ natToStr now) →
      ∀ x ∈ (addToHistory q now file analysis st).history, x.id ≠ natToStr now) := by
  have hmain : addToHistory q now file analysis st = st := by
    simp [addToHistory, h1, h2]
  exact ⟨hmain, fun hab x hx => hab x (by rw [hmain] at hx; exact hx)⟩

/-- Witness for C10: with no storage capacity at all, appending to the fresh
state changes nothing, and the new id is absent from the list. -/
theorem addToHistory_double_failure_inmemory_witness :
    addToHistory quotaNone 5 uploadA resA st0 = st0 ∧
    (∀ x ∈ (addToHistory quotaNone 5 uploadA resA st0).history, x.id ≠ natToStr 5) :=
  ⟨(addToHistory_double_failure_inmemory quotaNone 5 uploadA resA st0 rfl rfl).1,
   (addToHistory_double_failure_inmemory quotaNone 5 uploadA resA st0 rfl rfl).2
     (by decide)⟩

/-- C8: `deleteHistoryItem` is idempotent — applying it twice with the same
id equals applying it once; after a removal no record with that id remains
in the list; removing an id absent from the list leaves the list unchanged;
and every removal immediately re-persists exactly the updated list. -/
theorem deleteHistoryItem_idempotent (i : Str) (st : AppState) :
    deleteHistoryItem i (deleteHistoryItem i st) = deleteHistoryItem i st ∧
    (∀ x ∈ (deleteHistoryItem i st).history, x.id ≠ i) ∧
    ((∀ x ∈ st.history, x.id ≠ i) → (deleteHistoryItem i st).history = st.history) ∧
    (deleteHistoryItem i st).storage = some ((deleteHistoryItem i st).history) := by
  refine ⟨?_, ?_, ?_, rfl⟩
  · simp [deleteHistoryItem, filter_self_idem]
  · intro x hx
    have hmem := List.mem_filter.1 hx
    simpa using hmem.2
  · intro hab
    show st.history.filter _ = st.history
    exact List.filter_eq_self.2 fun a ha => by simpa using hab a ha

/-- Witness for C8: removing an id that is not in `stA`'s history leaves the
list unchanged. -/
theorem deleteHistoryItem_idempotent_witness :
    (deleteHistoryItem (str "9") stA).history = stA.history :=
  (deleteHistoryItem_idempotent (str "9") stA).2.2.1 (by decide)

/-- Counterexample for C6: when both persistence attempts fail, the append
completes without adding the record anywhere, so the history list after this
append does not return the newly appended record first (the list is still
empty and nothing was persisted). -/
theorem append_double_failure_cex :
    (addToHistory quotaNone 5 uploadA resA st0).history = [] ∧
    (addToHistory quotaNone 5 uploadA resA st0).storage = none := by decide

/-- C6 (amended): after every append whose persistence succeeds (on the full
record or on the preview-elided retry), the history list returns the newly
appended record first — same id, timestamp and verdict; appends that fail both
persistence attempts drop the record. The newest-first ordering by creation
time is an invariant of both the in-memory list and its persisted form, and
it is preserved by append, removal and the startup load (for append, under
the clock monotonicity `Date.now()` guarantees: the new timestamp is at least
every stored timestamp). -/
theorem history_newest_first_invariant (q : List HistoryItem → Bool) (now : Nat)
    (file : UploadedFile) (analysis : AnalysisResult) (st : AppState) (i : Str)
    (hs : newestFirst st.history)
    (hts : ∀ x ∈ st.history, x.timestamp ≤ now)
    (hstor : ∀ l, st.storage = some l → newestFirst l) :
    ((q (mkHistoryItem now file analysis :: st.history) = true ∨
        q ({ mkHistoryItem now file analysis with previewUrl := [] } :: st.history) = true) →
      ∃ r, (addToHistory q now file analysis st).history.head? = some r ∧
        r.id = natToStr now ∧ r.timestamp = now ∧ r.result = analysis) ∧
    newestFirst (addToHistory q now file analysis st).history ∧
    (∀ l, (addToHistory q now file analysis st).storage = some l → newestFirst l) ∧
    newestFirst (deleteHistoryItem i st).history ∧
    (∀ l, (deleteHistoryItem i st).storage = some l → newestFirst l) ∧
    newestFirst (loadHistory st).history := by
  have hcons : ∀ item : HistoryItem, item.timestamp = now →
      newestFirst (item :: st.history) := by
    intro item hit
    exact List.pairwise_cons.2 ⟨fun b hb => by rw [hit]; exact hts b hb, hs⟩
  have hfil : newestFirst (st.history.filter (fun item => decide (item.id ≠ i))) :=
    hs.sublist (List.filter_sublist st.history)
  by_cases hq1 : q (mkHistoryItem now file analysis :: st.history) = true
  · have hold : addToHistory q now file analysis st =
        { st with
            storage := some (mkHistoryItem now file analysis :: st.history)
            history := mkHistoryItem now file analysis :: st.history } := by
      simp [addToHistory, hq1]
    refine ⟨fun _ => ⟨mkHistoryItem now file analysis, by rw [hold]; rfl, rfl, rfl, rfl⟩,
      ?_, ?_, hfil, fun l hl => ?_, ?_⟩
    · rw [hold]; exact hcons _ rfl
    · intro l hl
      rw [hold] at hl
      simp only [Option.some.injEq] at hl
      rw [← hl]
      exact hcons _ rfl
    · have : (deleteHistoryItem i st).storage =
          some (st.history.filter (fun item => decide (item.id ≠ i))) := rfl
      rw [this] at hl
      simp only [Option.some.injEq] at hl
      rw [← hl]
      exact hfil
    · unfold loadHistory
      cases hsto : st.storage with
      | none => exact hs
      | some l => exact hstor l hsto
  · by_cases hq2 :
        q ({ mkHistoryItem now file analysis with previewUrl := [] } :: st.history) = true
    · have hold : addToHistory q now file analysis st =
          { st with
              storage := some
                ({ mkHistoryItem now file analysis with previewUrl := [] } :: st.history)
              history :=
                { mkHistoryItem now file analysis with previewUrl := [] } :: st.history } := by
        simp [addToHistory, hq1, hq2]
      refine ⟨fun _ => ⟨{ mkHistoryItem now file analysis with previewUrl := [] },
          by rw [hold]; rfl, rfl, rfl, rfl⟩, ?_, ?_, hfil, fun l hl => ?_, ?_⟩
      · rw [hold]; exact hcons _ rfl
      · intro l hl
        rw [hold] at hl
        simp only [Option.some.injEq] at hl
        rw [← hl]
        exact hcons _ rfl
      · have : (deleteHistoryItem i st).storage =
            some (st.history.filter (fun item => decide (item.id ≠ i))) := rfl
        rw [this] at hl
        simp only [Option.some.injEq] at hl
        rw [← hl]
        exact hfil
      · unfold loadHistory
        cases hsto : st.storage with
        | none => exact hs
        | some l => exact hstor l hsto
    · have hold : addToHistory q now file analysis st = st := by
        simp [addToHistory, hq1, hq2]
      refine ⟨fun hq => ?_, ?_, ?_, hfil, fun l hl => ?_, ?_⟩
      · rcases hq with hq | hq
        · exact absurd hq hq1
        · exact absurd hq hq2
      · rw [hold]; exact hs
      · intro l hl
        rw [hold] at hl
        exact hstor l hl
      · have : (deleteHistoryItem i st).storage =
            some (st.history.filter (fun item => decide (item.id ≠ i))) := rfl
        rw [this] at hl
        simp only [Option.some.injEq] at hl
        rw [← hl]
        exact hfil
      · unfold loadHistory
        cases hsto : st.storage with
        | none => exact hs
        | some l => exact hstor l hsto

/-- Witness for C6 (amended) on the fresh state with roomy storage: the
append puts the new record (id and timestamp 5, verdict `resA`) first. -/
theorem history_newest_first_invariant_witness :
    ∃ r, (addToHistory (fun _ => true) 5 uploadA resA st0).history.head? = some r ∧
      r.id = natToStr 5 ∧ r.timestamp = 5 ∧ r.result = resA :=
  (history_newest_first_invariant (fun _ => true) 5 uploadA resA st0 (str "x")
      List.Pairwise.nil (by simp [st0]) (by simp [st0])).1 (Or.inl rfl)

/-- Counterexample for C3: a file of exactly 20 MiB (20 * 1024 * 1024 bytes,
i.e. at the ceiling) is NOT rejected — the size check of src/App.tsx:118 uses
a strict comparison, so the file is read (and here even submitted and
archived), and no `FileTooLarge` message is produced. -/
theorem sizeLimit_boundary_cex :
    Effect.read file20 ∈ (processFile envOk file20 st0).2 ∧
    (processFile envOk file20 st0).1.error ≠
      some (str "File too large. Please upload media under 20MB.") ∧
    (processFile envOk file20 st0).1.status = .COMPLETED := by decide

/-- C3 (amended): for every file whose byte length strictly exceeds
20 * 1024 * 1024 bytes, `processFile` fails synchronously with the
`File too large` message (the `FileTooLarge` branch of the classifier
returns the thrown message verbatim): no read of the file is attempted, no
network call is made (the effect list is empty), and the state changes only
in `error` and `status` — in particular no history record results and
nothing is persisted. -/
theorem processFile_rejects_oversize (env : Env) (f : JSFile) (st : AppState)
    (h : f.size > 20 * 1024 * 1024) :
    processFile env f st =
      ({ st with
          error := some (str "File too large. Please upload media under 20MB.")
          status := .ERROR }, []) := by
  have hmsg : getFriendlyErrorMessage
      { message := some (str "File too large. Please upload media under 20MB.") } =
      str "File too large. Please upload media under 20MB." := by decide
  simp [processFile, h, hmsg]

/-- Witness for C3 (amended): a file one byte over the ceiling is rejected
with the fixed message, with an empty effect list and untouched history. -/
theorem processFile_rejects_oversize_witness :
    processFile envOk file21 st0 =
      ({ st0 with
          error := some (str "File too large. Please upload media under 20MB.")
          status := .ERROR }, []) :=
  processFile_rejects_oversize envOk file21 st0 (by decide)

/-- C7: for every file under the size ceiling whose read yields a well-formed
data URL (MIME type free of `,`/`:`/`;`, payload free of `,` — which base64
payloads always are), the captured `UploadedFile` has `base64` equal to the
payload and `mimeType` equal to the MIME string declared by the encoding
envelope (the file name plays no role), and its `previewUrl` is exactly the
fixed-format prefix `data:<mime>;base64,` followed by `base64` — so the
encoded payload is the preview representation with that prefix removed. -/
theorem encode_payload_preview_relation (env : Env) (f : JSFile) (st : AppState)
    (m p : Str)
    (hsize : ¬ f.size > 20 * 1024 * 1024)
    (hread : env.readFile f = .ok (mkDataUrl m p))
    (hm1 : ',' ∉ m) (hm2 : ':' ∉ m) (hm3 : ';' ∉ m) (hp : ',' ∉ p) :
    (processFile env f st).1.currentFile =
      some { file := f, previewUrl := mkDataUrl m p, base64 := p, mimeType := m } ∧
    ∀ u, (processFile env f st).1.currentFile = some u →
      u.previewUrl = str "data:" ++ u.mimeType ++ str ";base64," ++ u.base64 := by
  have hmain : (processFile env f st).1.currentFile =
      some { file := f, previewUrl := mkDataUrl m p, base64 := p, mimeType := m } := by
    cases hapi : env.api p m with
    | error e =>
        simp [processFile, hsize, hread, parseDataUrl_mk m p hm1 hm2 hm3 hp, hapi]
    | ok a =>
        simp [processFile, hsize, hread, parseDataUrl_mk m p hm1 hm2 hm3 hp, hapi,
          addToHistory_currentFile]
  refine ⟨hmain, fun u hu => ?_⟩
  rw [hmain] at hu
  injection hu with hu
  rw [← hu]
  rfl

/-- Witness for C7: submitting `fileA` under `envOk` captures the upload data
whose preview is the data URL `data:image/jpeg;base64,QUJD` and whose payload
is `QUJD`. -/
theorem encode_payload_preview_relation_witness :
    (processFile envOk fileA st0).1.currentFile =
      some { file := fileA
             previewUrl := mkDataUrl (str "image/jpeg") (str "QUJD")
             base64 := str "QUJD"
             mimeType := str "image/jpeg" } :=
  (encode_payload_preview_relation envOk fileA st0 (str "image/jpeg") (str "QUJD")
    (by decide) rfl (by decide) (by decide) (by decide) (by decide)).1

/-- Counterexample for C2: invoking `processFile` while the session is
already `ANALYZING` is not a no-op — the state machine has no guard on the
current status, so the second invocation initiates new requests (the effect
list is non-empty) and changes the session state. -/
theorem processFile_not_noop_while_analyzing_cex :
    stAna.status = .ANALYZING ∧
    (processFile envOk fileA stAna).2 ≠ [] ∧
    (processFile envOk fileA stAna).1 ≠ stAna := by decide

/-- C2 (amended): `processFile` never consults the session status, so a
second invocation while the session is `Submitting` re-enters the pipeline
rather than being a no-op: whenever the file passes the size check and the
reader fires, the second call initiates a fresh read of the file (and then a
fresh submission), growing the set of in-flight requests. -/
theorem processFile_reenters_while_analyzing (env : Env) (f : JSFile)
    (st : AppState) (raw : Str)
    (_hstat : st.status = .ANALYZING)
    (hsize : ¬ f.size > 20 * 1024 * 1024)
    (hread : env.readFile f = .ok raw) :
    Effect.read f ∈ (processFile env f st).2 := by
  cases hparse : parseDataUrl raw with
  | none => simp [processFile, hsize, hread, hparse]
  | some pr =>
      cases pr with
      | mk mimeType data =>
          cases hapi : env.api data mimeType with
          | error e => simp [processFile, hsize, hread, hparse, hapi]
          | ok a => simp [processFile, hsize, hread, hparse, hapi]

/-- Witness for C2 (amended): calling `processFile` on `fileA` while `stAna`
is already `ANALYZING` initiates a new read of `fileA`. -/
theorem processFile_reenters_while_analyzing_witness :
    Effect.read fileA ∈ (processFile envOk fileA stAna).2 :=
  processFile_reenters_while_analyzing envOk fileA stAna
    (mkDataUrl (str "image/jpeg") (str "QUJD")) rfl (by decide) rfl

/-- Counterexample for C1: from a session that entered `Failed` after a first
submission (`stErrA`, reached by submitting `fileA` under an environment
whose inference call fails with a connectivity error), clicking Retry DOES
re-read the raw file — the Retry handler re-invokes the full `processFile`
pipeline on the captured file, so the claim that retry does not re-read or
re-encode the file is false. -/
theorem retry_rereads_file_cex :
    stErrA.status = .ERROR ∧
    stErrA.currentFile.map (fun u => u.file) = some fileA ∧
    Effect.read fileA ∈ (retryClick envErr stErrA).2 := by decide

/-- C1 (amended): Retry re-invokes the full submission pipeline on the raw
file captured in the session — re-reading and re-encoding it — and, the file
and environment being unchanged, the retried run initiates exactly the same
requests as the first submission: the same read of the file followed by a
submission of the same `encodedPayload` and `contentType`. -/
theorem retry_reruns_pipeline_same_payload (env : Env) (f : JSFile)
    (st : AppState) (m p : Str) (e : RawError)
    (hsize : ¬ f.size > 20 * 1024 * 1024)
    (hread : env.readFile f = .ok (mkDataUrl m p))
    (hm1 : ',' ∉ m) (hm2 : ':' ∉ m) (hm3 : ';' ∉ m) (hp : ',' ∉ p)
    (hapi : env.api p m = .error e) :
    (processFile env f st).1.status = .ERROR ∧
    (processFile env f st).2 = [Effect.read f, Effect.apiCall p m] ∧
    (retryClick env (processFile env f st).1).2 =
      [Effect.read f, Effect.apiCall p m] ∧
    Effect.read f ∈ (retryClick env (processFile env f st).1).2 := by
  have hrun : ∀ s : AppState, processFile env f s =
      ({ s with
          status := .ERROR
          currentFile :=
            some { file := f, previewUrl := mkDataUrl m p, base64 := p, mimeType := m }
          result := none
          error := some (getFriendlyErrorMessage e) },
        [Effect.read f, Effect.apiCall p m]) := by
    intro s
    simp [processFile, hsize, hread, parseDataUrl_mk m p hm1 hm2 hm3 hp, hapi]
  rw [hrun st]
  refine ⟨rfl, rfl, ?_, ?_⟩ <;> simp [retryClick, hrun]

/-- Witness for C1 (amended): the connectivity-failure scenario on `fileA`:
the first submission fails, and the retried run issues the same read of
`fileA` and the same submission of payload `QUJD` with type `image/jpeg`. -/
theorem retry_reruns_pipeline_same_payload_witness :
    (processFile envErr fileA st0).1.status = .ERROR ∧
    (processFile envErr fileA st0).2 =
      [Effect.read fileA, Effect.apiCall (str "QUJD") (str "image/jpeg")] ∧
    (retryClick envErr (processFile envErr fileA st0).1).2 =
      [Effect.read fileA, Effect.apiCall (str "QUJD") (str "image/jpeg")] ∧
    Effect.read fileA ∈ (retryClick envErr (processFile envErr fileA st0).1).2 :=
  retry_reruns_pipeline_same_payload envErr fileA st0 (str "image/jpeg")
    (str "QUJD") { message := some (str "Failed to fetch") }
    (by decide) rfl (by decide) (by decide) (by decide) (by decide) rfl
